import Mathlib

/-!
Shallow embedding of the yyc-track-backend authentication/user-management
service (Express + Mongoose), covering the user model (`models/User.js`),
the JWT helpers (`config/jwt.js`), the passport Google strategy
(`config/passport.js`), the auth controller (`controllers/authController.js`)
and the user controller (`controllers/userController.js`).

Time is measured in milliseconds (JavaScript `Date.now()`).  The database is
a list of user records; Mongoose `findOne`/`findById`/`save` become list
operations.  External libraries (bcrypt, sha256, the `ms` timespan grammar
used by jsonwebtoken's `expiresIn`, and the JWT signature itself) are
modelled by injective executable stand-ins.
-/

namespace YYC

/-- The `authMethod` enum of the user schema: `['local', 'google']`. -/
inductive AuthMethod
  | localAuth
  | google
deriving DecidableEq, Repr

/-- The `role` enum of the user schema: `['user', 'admin']`. -/
inductive Role
  | user
  | admin
deriving DecidableEq, Repr

/-- One Mongoose user document (`models/User.js`).  `password` stores the
bcrypt hash produced by the pre-save hook; `none` models an absent
(`undefined`) field. -/
structure UserRec where
  _id : Nat
  firstName : String
  lastName : String
  email : String
  password : Option String := none
  passwordResetToken : Option String := none
  passwordResetExpires : Option Nat := none
  googleId : Option String := none
  authMethod : AuthMethod
  profilePicture : Option String := none
  isEmailVerified : Bool
  emailVerificationCode : Option String := none
  emailVerificationExpires : Option Nat := none
  postalCode : Option String := none
  role : Role := .user
  isActive : Bool := true
deriving DecidableEq, Repr

/-- Model of bcrypt hashing as performed by the pre-save hook (salting is
irrelevant to the claims; the stand-in is injective in the plaintext). -/
def hashPw (pw : String) : String := "bcrypt(" ++ pw ++ ")"

/-- Model of `UserSchema.methods.comparePassword`: false when no password is stored
(OAuth account), otherwise bcrypt comparison of plaintext against hash. -/
def comparePassword (u : UserRec) (pw : String) : Bool :=
  match u.password with
  | none => false
  | some h => hashPw pw == h

/-- Model of `crypto.createHash('sha256')...digest('hex')` (injective
executable stand-in). -/
def sha256 (s : String) : String := "sha256(" ++ s ++ ")"

/-- JS `String.prototype.toLowerCase` (model over the character list). -/
def jsToLower (s : String) : String := String.mk (s.data.map Char.toLower)

/-- JS `String.prototype.trim` (model over the character list). -/
def jsTrim (s : String) : String :=
  String.mk (((s.data.dropWhile Char.isWhitespace).reverse.dropWhile
    Char.isWhitespace).reverse)

/-- The email schema path has `lowercase: true` and `trim: true`; Mongoose
applies these setters both when a document field is set and when a query
filter is cast.  This is the normalized lookup key. -/
def emailKey (e : String) : String := jsToLower (jsTrim e)

/-- Model of `User.findOne({ email })`: first record whose stored email equals the
setter-normalized query value. -/
def findOneEmail (db : List UserRec) (e : String) : Option UserRec :=
  db.find? (fun u => u.email == emailKey e)

/-- Model of `User.findById(id)`. -/
def findById (db : List UserRec) (id : Nat) : Option UserRec :=
  db.find? (fun u => u._id == id)

/-- Model of `user.save()` on an existing document: the stored record with the same
`_id` is replaced by the mutated one. -/
def updateDb (db : List UserRec) (u : UserRec) : List UserRec :=
  db.map (fun w => if w._id == u._id then u else w)

/-! ## JWT (`config/jwt.js`) -/

/-- A signed JWT: payload `{ id }`, an `exp` instant (ms), and a signature
over payload and secret. -/
structure Jwt where
  id : Nat
  exp : Nat
  sig : String
deriving DecidableEq, Repr

/-- Model of the JWT signature over the payload under the server secret. -/
def jwtSignature (id exp : Nat) (secret : String) : String :=
  "hmac(" ++ toString id ++ "|" ++ toString exp ++ "|" ++ secret ++ ")"

/-- Unit table of the `ms` timespan grammar used by jsonwebtoken to parse a
string `expiresIn` option (factor in milliseconds; empty unit = ms). -/
def msUnitFactor (unit : String) : Option Nat :=
  if unit = "" ∨ unit = "ms" ∨ unit = "msec" ∨ unit = "msecs" ∨
     unit = "millisecond" ∨ unit = "milliseconds" then some 1
  else if unit = "s" ∨ unit = "sec" ∨ unit = "secs" ∨
     unit = "second" ∨ unit = "seconds" then some 1000
  else if unit = "m" ∨ unit = "min" ∨ unit = "mins" ∨
     unit = "minute" ∨ unit = "minutes" then some 60000
  else if unit = "h" ∨ unit = "hr" ∨ unit = "hrs" ∨
     unit = "hour" ∨ unit = "hours" then some 3600000
  else if unit = "d" ∨ unit = "day" ∨ unit = "days" then some 86400000
  else if unit = "w" ∨ unit = "week" ∨ unit = "weeks" then some 604800000
  else if unit = "y" ∨ unit = "yr" ∨ unit = "yrs" ∨
     unit = "year" ∨ unit = "years" then some 31557600000
  else none

/-- Decimal value of a digit-character list. -/
def digitsToNat (cs : List Char) : Nat :=
  cs.foldl (fun acc c => acc * 10 + (c.toNat - 48)) 0

/-- Parse of an `ms`-style timespan string (integer, optional spaces, unit);
`none` when the string is not a timespan — jsonwebtoken then throws. -/
def msParse (s : String) : Option Nat :=
  let digits := s.data.takeWhile Char.isDigit
  let unit := String.mk (((s.data.dropWhile Char.isDigit).dropWhile
    (· == ' ')).map Char.toLower)
  match digits with
  | [] => none
  | _ => (msUnitFactor unit).map (fun f => digitsToNat digits * f)

instance {ε α : Type _} [DecidableEq ε] [DecidableEq α] : DecidableEq (Except ε α) :=
  fun a b =>
  match a, b with
  | .error e, .error f =>
      if h : e = f then isTrue (h ▸ rfl) else isFalse (fun hc => h (Except.error.inj hc))
  | .ok x, .ok y =>
      if h : x = y then isTrue (h ▸ rfl) else isFalse (fun hc => h (Except.ok.inj hc))
  | .error _, .ok _ => isFalse (fun hc => Except.noConfusion hc)
  | .ok _, .error _ => isFalse (fun hc => Except.noConfusion hc)

/-- Server environment consumed from `process.env`. -/
structure Env where
  jwtSecret : String
deriving DecidableEq, Repr

/-- Model of `generateToken(id)` from `config/jwt.js`:
`jwt.sign({ id }, process.env.JWT_SECRET, { expiresIn: process.env.JWT_SECRET || '7d' })`.
The `expiresIn` option is the *secret* (falling back to `'7d'` only when the
secret is JS-falsy, i.e. empty); `jwt.sign` throws when the secret is empty
or when `expiresIn` is not a timespan. -/
def generateToken (env : Env) (now : Nat) (id : Nat) : Except String Jwt :=
  if env.jwtSecret = "" then
    .error "secretOrPrivateKey must have a value"
  else
    let expiresIn := if env.jwtSecret = "" then "7d" else env.jwtSecret
    match msParse expiresIn with
    | none =>
        .error "expiresIn should be a number of seconds or string representing a timespan"
    | some span => .ok ⟨id, now + span, jwtSignature id (now + span) env.jwtSecret⟩

/-- Model of `verifyToken(token)` from `config/jwt.js`: `jwt.verify` checks the
signature and the expiry; any failure is rethrown as `'Invalid Token'`. -/
def verifyToken (env : Env) (now : Nat) (tok : Jwt) : Except String Nat :=
  if tok.sig ≠ jwtSignature tok.id tok.exp env.jwtSecret then
    .error "Invalid Token"
  else if tok.exp ≤ now then
    .error "Invalid Token"
  else
    .ok tok.id

/-! ## HTTP responses and JSON user projections -/

/-- An HTTP JSON response.  `user?`/`users?` hold the serialized user
projection(s) as key/value lists (a key is present exactly when the source
object carries a defined value for it). -/
structure Resp where
  status : Nat
  success : Bool
  message : String := ""
  token : Option Jwt := none
  user? : Option (List (String × String)) := none
  users? : Option (List (List (String × String))) := none
  count : Option Nat := none
deriving DecidableEq, Repr

/-- A failure response `{ success: false, message }`. -/
def errResp (st : Nat) (msg : String) : Resp :=
  { status := st, success := false, message := msg }

/-- Serialize an optional string the way `res.json` does for a `null`-valued
property (the key stays, the value is `null`). -/
def optStr : Option String → String
  | some s => s
  | none => "null"

/-- An optional JSON member: `undefined` values are dropped by
`JSON.stringify`, so the key is absent when the field is absent. -/
def jsonField (k : String) : Option String → List (String × String)
  | some v => [(k, v)]
  | none => []

def authMethodStr : AuthMethod → String
  | .localAuth => "local"
  | .google => "google"

def roleStr : Role → String
  | .user => "user"
  | .admin => "admin"

def boolStr (b : Bool) : String := if b then "true" else "false"

/-- The user object of the register 201 response (`authController.js`). -/
def registerPayload (u : UserRec) : List (String × String) :=
  [("id", toString u._id), ("firstName", u.firstName), ("lastName", u.lastName),
   ("email", u.email)] ++ jsonField "postalCode" u.postalCode ++
  [("role", roleStr u.role), ("authMethod", authMethodStr u.authMethod),
   ("isEmailVerified", boolStr u.isEmailVerified)]

/-- The user object of the login 200 response. -/
def loginPayload (u : UserRec) : List (String × String) :=
  [("firstName", u.firstName), ("lastName", u.lastName), ("email", u.email)] ++
  jsonField "postalCode" u.postalCode ++
  [("role", roleStr u.role), ("authMethod", authMethodStr u.authMethod),
   ("profilePicture", optStr u.profilePicture)]

/-- The user object of the `GET /auth/me` 200 response. -/
def mePayload (u : UserRec) : List (String × String) :=
  [("id", toString u._id), ("firstName", u.firstName), ("lastName", u.lastName),
   ("email", u.email)] ++ jsonField "postalCode" u.postalCode ++
  [("role", roleStr u.role), ("authMethod", authMethodStr u.authMethod),
   ("profilePicture", optStr u.profilePicture),
   ("isEmailVerified", boolStr u.isEmailVerified)]

/-- The user object returned by `completeOAuthProfile` and `updateProfile`
(both enumerate the same fields). -/
def profileUserPayload (u : UserRec) : List (String × String) :=
  [("id", toString u._id), ("firstName", u.firstName), ("lastName", u.lastName),
   ("email", u.email)] ++ jsonField "postalCode" u.postalCode ++
  [("role", roleStr u.role), ("authMethod", authMethodStr u.authMethod),
   ("profilePicture", optStr u.profilePicture)]

/-- The user object of the verify-email 200 response. -/
def verifyEmailPayload (u : UserRec) : List (String × String) :=
  [("id", toString u._id), ("firstName", u.firstName), ("lastName", u.lastName),
   ("email", u.email), ("isEmailVerified", boolStr u.isEmailVerified)]

/-- Serialization of a whole Mongoose document as fetched with
`.select('-password')`: the schema's `select: false` paths (`password`,
`passwordResetToken`, `passwordResetExpires`, `emailVerificationCode`,
`emailVerificationExpires`) are excluded by default and `password` is
excluded explicitly, every other path is included. -/
def docJson (u : UserRec) : List (String × String) :=
  [("_id", toString u._id), ("firstName", u.firstName), ("lastName", u.lastName),
   ("email", u.email)] ++ jsonField "googleId" u.googleId ++
  [("authMethod", authMethodStr u.authMethod),
   ("profilePicture", optStr u.profilePicture),
   ("isEmailVerified", boolStr u.isEmailVerified)] ++
  jsonField "postalCode" u.postalCode ++
  [("role", roleStr u.role), ("isActive", boolStr u.isActive)]

/-! ## Validation (user schema validators, run by `save`/`create`) -/

/-- The schema's password validators: `minlength: 7` plus the regex
requiring a lowercase letter, an uppercase letter and a character outside
`A-Za-z0-9`. -/
def passwordValid (p : String) : Bool :=
  decide (7 ≤ p.length) && p.data.any Char.isLower && p.data.any Char.isUpper &&
  p.data.any (fun c => !c.isAlphanum)

/-- Mongo `$gt: Date.now()` comparison on an optional expiry field: an
absent field never satisfies `$gt`. -/
def expiresAfter (exp : Option Nat) (now : Nat) : Bool :=
  match exp with
  | some e => now < e
  | none => false

/-! ## Auth controller (`controllers/authController.js`) -/

/-- Request body of `POST /auth/register`. -/
structure RegisterReq where
  firstName : String
  lastName : String
  email : String
  password : String
  postalCode : Option String
deriving DecidableEq, Repr

/-- The `User.create` validation for a local registration: `firstName`,
`lastName`, `email` required (empty after trim fails `required`), password
required with length/regex validators. -/
def registerValid (req : RegisterReq) : Bool :=
  jsTrim req.firstName != "" && jsTrim req.lastName != "" &&
  emailKey req.email != "" && passwordValid req.password

/-- Model of `sendVerificationEmail` / `sendPasswordResetEmail` (utils/email.js):
rethrows a delivery failure as an error. -/
def sendEmailM (delivered : Bool) : Except String Unit :=
  if delivered then .ok () else .error "Failed to send email"

/-- The record built by `User.create` during registration: schema setters
applied, password hashed by the pre-save hook, `authMethod: 'local'`,
unverified, fresh code with a 10-minute expiry. -/
def newLocalUser (req : RegisterReq) (now : Nat) (code : String)
    (freshId : Nat) : UserRec :=
  { _id := freshId,
    firstName := jsTrim req.firstName,
    lastName := jsTrim req.lastName,
    email := emailKey req.email,
    password := some (hashPw req.password),
    authMethod := .localAuth,
    isEmailVerified := false,
    emailVerificationCode := some code,
    emailVerificationExpires := some (now + 10 * 60 * 1000),
    postalCode := req.postalCode.map jsTrim }

/-- Model of `registerUser`: duplicate-email check, `User.create` (with pre-save
hashing and a fresh 6-digit code valid 10 minutes), verification email whose
failure is caught and only logged, then `generateToken`; a token error hits
the outer catch (the account is already persisted) as a 500. -/
def registerUser (env : Env) (db : List UserRec) (req : RegisterReq)
    (now : Nat) (code : String) (emailOk : Bool) (freshId : Nat) :
    Resp × List UserRec :=
  match findOneEmail db req.email with
  | some _ => (errResp 400 "User already exists with this email", db)
  | none =>
    if !registerValid req then
      (errResp 400 "Validation failed", db)
    else
      let user : UserRec := newLocalUser req now code freshId
      let db' := db ++ [user]
      let _emailResult := sendEmailM emailOk  -- catch: failure logged, not fatal
      match generateToken env now freshId with
      | .error _ => (errResp 500 "Server error during registration", db')
      | .ok tok =>
          ({ status := 201, success := true, message := "User registered successfully",
             token := some tok, user? := some (registerPayload user) }, db')

/-- Model of `loginUser`: field presence, user lookup (with `+password`), OAuth-method
check, active check, password comparison, then token issuance. -/
def loginUser (env : Env) (db : List UserRec) (email password : String)
    (now : Nat) : Resp :=
  if email = "" ∨ password = "" then
    errResp 400 "Please provide email and password"
  else
    match findOneEmail db email with
    | none => errResp 400 "Invalid credentials"
    | some u =>
      if u.authMethod = .google then
        errResp 400 "This account uses Google sign-in. Please login with Google."
      else if !u.isActive then
        errResp 400 "Account has been deactivated"
      else if !comparePassword u password then
        errResp 401 "Invalid credentials"
      else
        match generateToken env now u._id with
        | .error _ => errResp 500 "Server error during login"
        | .ok tok =>
            { status := 200, success := true, message := "Login successful",
              token := some tok, user? := some (loginPayload u) }

/-- Model of `getCurrentUser`: `findById` then respond; a missing user makes the
property accesses throw into the catch-all 500. -/
def getCurrentUser (db : List UserRec) (uid : Nat) : Resp :=
  match findById db uid with
  | none => errResp 500 "Server error fetching user data"
  | some u => { status := 200, success := true, user? := some (mePayload u) }

/-- Model of `completeOAuthProfile`: requires `postalCode`, updates it and saves. -/
def completeOAuthProfile (db : List UserRec) (uid : Nat) (postalCode : String) :
    Resp × List UserRec :=
  if postalCode = "" then
    (errResp 400 "Postal code is required", db)
  else
    match findById db uid with
    | none => (errResp 404 "User not found", db)
    | some u =>
      let u' := { u with postalCode := some (jsTrim postalCode) }
      ({ status := 200, success := true, message := "Profile completed successfully",
         user? := some (profileUserPayload u') }, updateDb db u')

/-- The mutation a successful email verification performs before its single
`save`: verified flag set, code and expiry cleared. -/
def consumeVerificationCode (u : UserRec) : UserRec :=
  { u with isEmailVerified := true, emailVerificationCode := none,
           emailVerificationExpires := none }

/-- Model of `verifyEmail`: `findOne` on the caller's id, a matching code and an
unexpired clock; success marks the email verified and clears both secret
fields in the same save. -/
def verifyEmail (db : List UserRec) (uid : Nat) (code : String) (now : Nat) :
    Resp × List UserRec :=
  if code = "" then
    (errResp 400 "Please provide verification code", db)
  else
    match db.find? (fun u => u._id == uid && u.emailVerificationCode == some code &&
                             expiresAfter u.emailVerificationExpires now) with
    | none => (errResp 400 "Invalid or expired verification code", db)
    | some u =>
      let u' := consumeVerificationCode u
      ({ status := 200, success := true, message := "Email verified successfully",
         user? := some (verifyEmailPayload u') }, updateDb db u')

/-- Model of `resendVerificationCode`: 404 when the user is gone, 400 when already
verified; otherwise a fresh code and ten-minute expiry are saved — and the
handler ends without sending any response (`none`). -/
def resendVerificationCode (db : List UserRec) (uid : Nat) (now : Nat)
    (newCode : String) : Option Resp × List UserRec :=
  match findById db uid with
  | none => (some (errResp 404 "User not found"), db)
  | some u =>
    if u.isEmailVerified then
      (some (errResp 400 "Email is already verified"), db)
    else
      let u' := { u with emailVerificationCode := some newCode,
                         emailVerificationExpires := some (now + 10 * 60 * 1000) }
      (none, updateDb db u')

/-- Model of `forgotPassword`: generic 200 when the email is unknown; 400 for an
OAuth account; otherwise the hashed reset token and one-hour expiry are
saved, then the reset email is sent — `sendPasswordResetEmail` is awaited
without an inner catch, so a delivery failure falls through to the outer
catch and answers 500 (the saved token remains persisted). -/
def forgotPassword (db : List UserRec) (email : String) (now : Nat)
    (rawToken : String) (emailOk : Bool) : Resp × List UserRec :=
  if email = "" then
    (errResp 400 "Please provide an email address", db)
  else
    match findOneEmail db email with
    | none =>
        ({ status := 200, success := true,
           message := "If an account exists with that email, a password reset link has been sent" },
         db)
    | some u =>
      if u.authMethod ≠ .localAuth then
        (errResp 400 "Account uses Google sign-in. Please login with Google", db)
      else
        let u' := { u with passwordResetToken := some (sha256 rawToken),
                           passwordResetExpires := some (now + 60 * 60 * 1000) }
        let db' := updateDb db u'
        match sendEmailM emailOk with
        | .error _ => (errResp 500 "Error sending password reset email", db')
        | .ok _ =>
            ({ status := 200, success := true, message := "Password reset email sent" }, db')

/-- The mutation a successful password reset performs before its single
`save`: new password set (rehashed by the pre-save hook), token hash and
expiry cleared. -/
def consumeResetToken (u : UserRec) (newPassword : String) : UserRec :=
  { u with password := some (hashPw newPassword),
           passwordResetToken := none, passwordResetExpires := none }

/-- Model of `resetPassword`: hashes the URL token, looks up a record holding that
hash with an unexpired clock, validates the new password (a validation
failure aborts the save), then sets the rehashed password and clears both
reset fields in the same save. -/
def resetPassword (db : List UserRec) (token : String) (newPassword : String)
    (now : Nat) : Resp × List UserRec :=
  if newPassword = "" then
    (errResp 400 "Please provide a new password", db)
  else
    match db.find? (fun u => u.passwordResetToken == some (sha256 token) &&
                             expiresAfter u.passwordResetExpires now) with
    | none => (errResp 400 "Invalid or expired reset token", db)
    | some u =>
      if !passwordValid newPassword then
        (errResp 400 "Password validation failed", db)
      else
        let u' := consumeResetToken u newPassword
        ({ status := 200, success := true,
           message := "Password reset successful. You can now login with your new password." },
         updateDb db u')

/-! ## Google OAuth strategy (`config/passport.js`) -/

/-- Profile data extracted from the Google OAuth response. -/
structure GoogleProfile where
  email : String
  givenName : String
  familyName : String
  googleId : String
  photo : Option String
deriving DecidableEq, Repr

/-- The linking mutation applied to a local record whose email matches the
OAuth profile, before its single `save`. -/
def linkGoogle (u : UserRec) (p : GoogleProfile) : UserRec :=
  { u with googleId := some p.googleId, authMethod := .google,
           profilePicture := p.photo, isEmailVerified := true }

/-- The `GoogleStrategy` verify callback: an existing record with
`authMethod == 'local'` is linked (googleId set, authMethod flipped to
google, profile picture stored, email marked verified); an existing google
record passes through; an unknown email creates a verified google record. -/
def googleStrategyVerify (db : List UserRec) (p : GoogleProfile) (freshId : Nat) :
    UserRec × List UserRec :=
  match findOneEmail db p.email with
  | some u =>
    if u.authMethod = .localAuth then
      let u' := linkGoogle u p
      (u', updateDb db u')
    else (u, db)
  | none =>
    let u : UserRec := {
      _id := freshId, firstName := jsTrim p.givenName, lastName := jsTrim p.familyName,
      email := emailKey p.email, googleId := some p.googleId, authMethod := .google,
      profilePicture := p.photo, isEmailVerified := true }
    (u, db ++ [u])

/-! ## User controller (`controllers/userController.js`) -/

/-- Request body of `PUT /users/profile` (every field optional). -/
structure UpdateProfileReq where
  firstName : Option String
  lastName : Option String
  postalCode : Option String
deriving DecidableEq, Repr

/-- The field updates of `updateProfile`: `if (field) user.field = field`
(JS truthiness: absent or empty keeps the prior value; the schema's trim
setter applies on assignment). -/
def applyProfileUpdate (u : UserRec) (req : UpdateProfileReq) : UserRec :=
  { u with
    firstName := (match req.firstName with
      | some s => if s ≠ "" then jsTrim s else u.firstName
      | none => u.firstName),
    lastName := (match req.lastName with
      | some s => if s ≠ "" then jsTrim s else u.lastName
      | none => u.lastName),
    postalCode := (match req.postalCode with
      | some s => if s ≠ "" then some (jsTrim s) else u.postalCode
      | none => u.postalCode) }

/-- Model of `updateProfile`: look up the caller, apply the three optional field
updates, save (validation can still reject an all-whitespace name). -/
def updateProfile (db : List UserRec) (uid : Nat) (req : UpdateProfileReq) :
    Resp × List UserRec :=
  match findById db uid with
  | none => (errResp 404 "User not found", db)
  | some u =>
    let u' := applyProfileUpdate u req
    if u'.firstName = "" ∨ u'.lastName = "" then
      (errResp 400 "Validation failed", db)
    else
      ({ status := 200, success := true, message := "Profile updated successfully",
         user? := some (profileUserPayload u') }, updateDb db u')

/-- Model of `changePassword`: field presence, lookup with `+password`, OAuth check,
current-password comparison, then the same-password rejection *before* any
write; a schema validation failure on the new password lands in the catch,
whose `error.name === 'Validation Error'` test (note the space) never
matches `ValidationError`, so it answers the generic 500. -/
def changePassword (db : List UserRec) (uid : Nat)
    (currentPassword newPassword : String) : Resp × List UserRec :=
  if currentPassword = "" ∨ newPassword = "" then
    (errResp 400 "Please provide current password and new password", db)
  else
    match findById db uid with
    | none => (errResp 404 "User not found", db)
    | some u =>
      if u.authMethod ≠ .localAuth then
        (errResp 400 "Cannot change password for OAuth accounts", db)
      else if !comparePassword u currentPassword then
        (errResp 401 "Current password is incorrect", db)
      else if currentPassword == newPassword then
        (errResp 400 "New password must be different from current password", db)
      else if !passwordValid newPassword then
        (errResp 500 "Server error changing password", db)
      else
        ({ status := 200, success := true, message := "Password changed successfully" },
         updateDb db { u with password := some (hashPw newPassword) })

/-- Model of `deleteAccount`: soft delete, `isActive := false`. -/
def deleteAccount (db : List UserRec) (uid : Nat) : Resp × List UserRec :=
  match findById db uid with
  | none => (errResp 404 "User not found", db)
  | some u =>
    ({ status := 200, success := true, message := "Account deactivated successfully" },
     updateDb db { u with isActive := false })

/-- Model of `getAllUsers`: all active users with the `-password` projection. -/
def getAllUsers (db : List UserRec) : Resp :=
  let users := db.filter (·.isActive)
  { status := 200, success := true, count := some users.length,
    users? := some (users.map docJson) }

/-- Model of `getUserById`: one user with the `-password` projection, 404 when the id
is unknown. -/
def getUserById (db : List UserRec) (id : Nat) : Resp :=
  match findById db id with
  | none => errResp 404 "User not found"
  | some u => { status := 200, success := true, user? := some (docJson u) }

/-! ## Claim theorems -/

/-- C1: the claim that the token issuer embeds a 7-day expiry (verify ∘
issue = id right after issuance, failing after 7 days) is contradicted by
the code: `generateToken` passes `process.env.JWT_SECRET || '7d'` — the
signing *secret* — as the `expiresIn` option, against its own comment
"token expires in 7 days".  With an ordinary secret such as
`"yycsecretkey"` issuance throws instead of returning a token, and with a
secret that happens to parse as a timespan (`"30d"`) the embedded expiry is
that timespan, not 7 days. -/
theorem C1_generateToken_expiry_is_the_secret :
    generateToken ⟨"yycsecretkey"⟩ 0 1 =
      Except.error "expiresIn should be a number of seconds or string representing a timespan" ∧
    generateToken ⟨"30d"⟩ 0 1 =
      Except.ok ⟨1, 30 * 86400000, jwtSignature 1 (30 * 86400000) "30d"⟩ ∧
    (30 : Nat) * 86400000 ≠ 7 * 86400000 := by
  refine ⟨by decide, by decide, by decide⟩

/-- Replacing the record a successful `find?` located, by a record with the
same `_id` that still satisfies the search predicate, makes `find?` return
the replacement. -/
theorem find?_updateDb_match {db : List UserRec} {P : UserRec → Bool}
    {u u' : UserRec}
    (hfind : db.find? P = some u) (hid : u'._id = u._id) (hP : P u' = true) :
    (updateDb db u').find? P = some u' := by
  induction db with
  | nil => cases hfind
  | cons w t ih =>
    unfold updateDb
    simp only [List.map_cons]
    by_cases hw : w._id = u'._id
    · rw [if_pos (beq_iff_eq.mpr hw)]
      rw [List.find?_cons_of_pos _ hP]
    · rw [if_neg (fun hcc => hw (by simpa using hcc))]
      by_cases hPw : P w = true
      · rw [List.find?_cons_of_pos _ hPw] at hfind
        injection hfind with hwu
        exact absurd (show w._id = u'._id by rw [hwu]; exact hid.symm) hw
      · rw [List.find?_cons_of_neg _ (by simpa using hPw)] at hfind
        rw [List.find?_cons_of_neg _ (by simpa using hPw)]
        exact ih hfind

/-! ## Sample records for concrete evaluations -/

/-- A local account with a pending verification code (expiry instant
601000 ms). -/
def adaLocal : UserRec :=
  { _id := 1, firstName := "Ada", lastName := "Lovelace", email := "ada@x.com",
    password := some (hashPw "Passw0rd!"), authMethod := .localAuth,
    isEmailVerified := false,
    emailVerificationCode := some "123456",
    emailVerificationExpires := some 601000 }

/-- A verified local account with no pending secrets. -/
def bobLocal : UserRec :=
  { _id := 2, firstName := "Bob", lastName := "Knuth", email := "bob@x.com",
    password := some (hashPw "Passw0rd!"), authMethod := .localAuth,
    isEmailVerified := true }

/-- C3: the claim that a resend-verification request by an unverified user
regenerates the code and *responds 200* is only half borne out by the code:
the handler regenerates and saves a fresh 6-digit code and 10-minute expiry
(and answers 400 when already verified), but its success path falls off the
end of the function without sending any response — the model returns `none`
where the claimed 200 should be. -/
theorem C3_resend_regenerates_but_sends_no_response :
    resendVerificationCode [adaLocal] 1 1000 "654321" =
      (none, [{ adaLocal with emailVerificationCode := some "654321",
                              emailVerificationExpires := some 601000 }]) ∧
    resendVerificationCode [{ adaLocal with isEmailVerified := true }] 1 1000 "654321" =
      (some (errResp 400 "Email is already verified"),
       [{ adaLocal with isEmailVerified := true }]) := by
  exact ⟨by decide, by decide⟩

/-- C7: login with the correct email and password for a deactivated local
account fails with the `AccountDeactivated` message, not
`InvalidCredentials` — the `isActive` check sits before the password
comparison, so the conclusion needs no use of the password-match
hypothesis. -/
theorem C7_deactivated_login_fails_account_deactivated
    (env : Env) (db : List UserRec) (email password : String) (now : Nat)
    (u : UserRec)
    (hemail : email ≠ "") (hpw : password ≠ "")
    (hfind : findOneEmail db email = some u)
    (hlocal : u.authMethod = .localAuth)
    (hinactive : u.isActive = false)
    (hmatch : comparePassword u password = true) :
    loginUser env db email password now = errResp 400 "Account has been deactivated" ∧
    loginUser env db email password now ≠ errResp 400 "Invalid credentials" ∧
    loginUser env db email password now ≠ errResp 401 "Invalid credentials" := by
  have hcond : ¬(email = "" ∨ password = "") := by simp [hemail, hpw]
  have hmain : loginUser env db email password now =
      errResp 400 "Account has been deactivated" := by
    unfold loginUser
    rw [if_neg hcond, hfind]
    simp [hlocal, hinactive]
  refine ⟨hmain, ?_, ?_⟩ <;> rw [hmain] <;> decide

/-- C7 witness: concrete deactivated account, correct credentials. -/
theorem C7_witness :
    loginUser ⟨"7d"⟩ [{ bobLocal with isActive := false }] "bob@x.com" "Passw0rd!" 0 =
      errResp 400 "Account has been deactivated" :=
  (C7_deactivated_login_fails_account_deactivated ⟨"7d"⟩
    [{ bobLocal with isActive := false }] "bob@x.com" "Passw0rd!" 0
    { bobLocal with isActive := false }
    (by decide) (by decide) (by decide) (by decide) (by decide) (by decide)).1

/-- C9: a change-password request whose current password verifies but whose
new password equals the current one is rejected with a 400 and the database
(in particular the stored password hash) is unchanged. -/
theorem C9_change_password_same_password_rejected
    (db : List UserRec) (uid : Nat) (pw : String) (u : UserRec)
    (hpw : pw ≠ "")
    (hfind : findById db uid = some u)
    (hlocal : u.authMethod = .localAuth)
    (hmatch : comparePassword u pw = true) :
    changePassword db uid pw pw =
      (errResp 400 "New password must be different from current password", db) := by
  have hcond : ¬(pw = "" ∨ pw = "") := by simp [hpw]
  unfold changePassword
  rw [if_neg hcond, hfind]
  simp [hlocal, hmatch]

/-- C9 witness: concrete local account changing its password to itself. -/
theorem C9_witness :
    changePassword [bobLocal] 2 "Passw0rd!" "Passw0rd!" =
      (errResp 400 "New password must be different from current password",
       [bobLocal]) :=
  C9_change_password_same_password_rejected [bobLocal] 2 "Passw0rd!" bobLocal
    (by decide) (by decide) (by decide) (by decide)

/-- A valid local registration request (case-varied email). -/
def newReq : RegisterReq :=
  { firstName := "New", lastName := "User", email := "new@x.com",
    password := "Str0ng!pw", postalCode := some "T2X1A1" }

/-- C6: when the (case-insensitively normalized) email of a registration
request already belongs to a stored record — stored emails being normalized
by the schema's lowercase/trim setters, and the query filter being
normalized the same way — registration answers 400 `DuplicateEmail` and the
database is unchanged. -/
theorem C6_duplicate_email_registration_rejected
    (env : Env) (db : List UserRec) (req : RegisterReq) (now : Nat)
    (code : String) (emailOk : Bool) (freshId : Nat) (u : UserRec)
    (hmem : u ∈ db)
    (hnorm : ∀ v ∈ db, v.email = emailKey v.email)
    (hdup : emailKey u.email = emailKey req.email) :
    registerUser env db req now code emailOk freshId =
      (errResp 400 "User already exists with this email", db) := by
  have hP : (u.email == emailKey req.email) = true := by
    rw [hnorm u hmem, hdup]
    exact beq_self_eq_true _
  have hsome : (findOneEmail db req.email).isSome := by
    unfold findOneEmail
    exact List.find?_isSome.mpr ⟨u, hmem, hP⟩
  obtain ⟨w, hw⟩ := Option.isSome_iff_exists.mp hsome
  unfold registerUser
  rw [hw]

/-- C6 witness: re-registering `bob@x.com` under a different letter case. -/
theorem C6_witness :
    registerUser ⟨"7d"⟩ [bobLocal] { newReq with email := "Bob@X.com" } 0
        "123456" true 9 =
      (errResp 400 "User already exists with this email", [bobLocal]) :=
  C6_duplicate_email_registration_rejected ⟨"7d"⟩ [bobLocal]
    { newReq with email := "Bob@X.com" } 0 "123456" true 9 bobLocal
    (by decide) (by decide) (by decide)

/-- C2 counterexample: the claim says an email-delivery failure never
surfaces as an operation failure, but a forgot-password request for a known
local account whose reset email fails to send answers a 500 failure
response. -/
theorem C2_counterexample_forgot_email_failure_surfaces :
    (forgotPassword [bobLocal] "bob@x.com" 0 "rawtoken" false).1 =
      errResp 500 "Error sending password reset email" ∧
    (forgotPassword [bobLocal] "bob@x.com" 0 "rawtoken" false).1.success = false := by
  exact ⟨by decide, by decide⟩

/-- C2 amended: registration's verification-email failure is logged and
swallowed — the response (201 on the happy path) and the persisted state are
identical whether or not delivery succeeds, and the account is persisted;
forgot-password persists the reset-token issuance before attempting
delivery, but a delivery failure surfaces as a 500 operation failure (the
persisted token is retained). -/
theorem C2_amended_email_failure_handling :
    (∀ (env : Env) (db : List UserRec) (req : RegisterReq) (now : Nat)
        (code : String) (freshId : Nat),
      registerUser env db req now code false freshId =
        registerUser env db req now code true freshId) ∧
    (∀ (env : Env) (db : List UserRec) (req : RegisterReq) (now : Nat)
        (code : String) (freshId : Nat) (tok : Jwt),
      findOneEmail db req.email = none → registerValid req = true →
      generateToken env now freshId = .ok tok →
      (registerUser env db req now code false freshId).1.status = 201 ∧
      (registerUser env db req now code false freshId).1.success = true ∧
      (registerUser env db req now code false freshId).2 =
        db ++ [newLocalUser req now code freshId]) ∧
    (∀ (db : List UserRec) (email : String) (now : Nat) (raw : String)
        (u : UserRec),
      email ≠ "" → findOneEmail db email = some u → u.authMethod = .localAuth →
      (forgotPassword db email now raw false).1 =
        errResp 500 "Error sending password reset email" ∧
      (forgotPassword db email now raw false).2 =
        updateDb db { u with passwordResetToken := some (sha256 raw),
                             passwordResetExpires := some (now + 60 * 60 * 1000) }) := by
  refine ⟨fun env db req now code freshId => rfl, ?_, ?_⟩
  · intro env db req now code freshId tok hnone hvalid htok
    unfold registerUser
    rw [hnone]
    simp only [hvalid, Bool.not_true, Bool.false_eq_true, if_false]
    rw [htok]
    exact ⟨rfl, rfl, rfl⟩
  · intro db email now raw u hemail hfind hlocal
    unfold forgotPassword
    rw [if_neg hemail, hfind]
    simp [hlocal, sendEmailM]

/-- C2 witness: a concrete registration with failed delivery still answers
201, and a concrete forgot-password with failed delivery persists the
hashed token. -/
theorem C2_witness :
    (registerUser ⟨"7d"⟩ [] newReq 0 "123456" false 9).1.status = 201 ∧
    (forgotPassword [bobLocal] "bob@x.com" 0 "rawtoken" false).2 =
      updateDb [bobLocal]
        { bobLocal with passwordResetToken := some (sha256 "rawtoken"),
                        passwordResetExpires := some 3600000 } := by
  have h := C2_amended_email_failure_handling
  exact ⟨(h.2.1 ⟨"7d"⟩ [] newReq 0 "123456" 9
            ⟨9, 604800000, jwtSignature 9 604800000 "7d"⟩
            (by decide) (by decide) (by decide)).1,
         (h.2.2 [bobLocal] "bob@x.com" 0 "rawtoken" bobLocal
            (by decide) (by decide) (by decide)).2⟩

/-- A local account with an outstanding password-reset request (hash of the
raw token `"rawreset"`, expiry instant 3600000 ms). -/
def carolReset : UserRec :=
  { _id := 4, firstName := "Carol", lastName := "Shaw", email := "carol@x.com",
    password := some (hashPw "Old1!pass"), authMethod := .localAuth,
    isEmailVerified := true,
    passwordResetToken := some (sha256 "rawreset"),
    passwordResetExpires := some 3600000 }

/-- C4: one-time secrets are single-use.  A successful email verification
clears the code and its expiry in the same save as the verified flag, so
re-submitting the same code (at any later clock) answers the
invalid-or-expired 400 and leaves the state untouched; a successful
password reset clears the token hash and its expiry in the same save as the
new password, so re-submitting the same raw token (with any new password,
assuming the token hash was stored on at most one record) answers the
invalid-or-expired 400 and leaves the state untouched. -/
theorem C4_one_time_secrets_single_use :
    (∀ (db : List UserRec) (uid : Nat) (code : String) (now : Nat)
        (r : Resp) (db1 : List UserRec),
      verifyEmail db uid code now = (r, db1) → r.success = true →
      ∀ now', verifyEmail db1 uid code now' =
        (errResp 400 "Invalid or expired verification code", db1)) ∧
    (∀ (db : List UserRec) (token np : String) (now : Nat)
        (r : Resp) (db1 : List UserRec),
      (∀ v ∈ db, ∀ w ∈ db, v.passwordResetToken = some (sha256 token) →
        w.passwordResetToken = some (sha256 token) → v = w) →
      resetPassword db token np now = (r, db1) → r.success = true →
      ∀ now' np', np' ≠ "" → resetPassword db1 token np' now' =
        (errResp 400 "Invalid or expired reset token", db1)) := by
  constructor
  · intro db uid code now r db1 h hsucc now'
    unfold verifyEmail at h
    by_cases hcode : code = ""
    · rw [if_pos hcode] at h
      obtain ⟨hr, _⟩ := Prod.mk.injEq .. |>.mp h
      rw [← hr] at hsucc
      simp [errResp] at hsucc
    · rw [if_neg hcode] at h
      cases hfind : db.find? (fun u => u._id == uid &&
          u.emailVerificationCode == some code &&
          expiresAfter u.emailVerificationExpires now) with
      | none =>
        rw [hfind] at h
        obtain ⟨hr, _⟩ := Prod.mk.injEq .. |>.mp h
        rw [← hr] at hsucc
        simp [errResp] at hsucc
      | some u =>
        rw [hfind] at h
        obtain ⟨_, hdb⟩ := Prod.mk.injEq .. |>.mp h
        have hu := List.find?_some hfind
        simp only [Bool.and_eq_true, beq_iff_eq] at hu
        obtain ⟨⟨hid, _⟩, _⟩ := hu
        subst hdb
        unfold verifyEmail
        rw [if_neg hcode]
        have hnone : (updateDb db (consumeVerificationCode u)).find?
            (fun v => v._id == uid && v.emailVerificationCode == some code &&
              expiresAfter v.emailVerificationExpires now') = none := by
          rw [List.find?_eq_none]
          intro v hv
          obtain ⟨w, _, rfl⟩ := List.mem_map.mp hv
          by_cases hwid : w._id = u._id
          · simp [consumeVerificationCode, hwid]
          · have hwuid : w._id ≠ uid := by rw [← hid]; exact hwid
            simp [consumeVerificationCode, hwid, hwuid]
        rw [hnone]
  · intro db token np now r db1 huniq h hsucc now' np' hnp'
    unfold resetPassword at h
    by_cases hnp : np = ""
    · rw [if_pos hnp] at h
      obtain ⟨hr, _⟩ := Prod.mk.injEq .. |>.mp h
      rw [← hr] at hsucc
      simp [errResp] at hsucc
    · rw [if_neg hnp] at h
      cases hfind : db.find? (fun u =>
          u.passwordResetToken == some (sha256 token) &&
          expiresAfter u.passwordResetExpires now) with
      | none =>
        rw [hfind] at h
        obtain ⟨hr, _⟩ := Prod.mk.injEq .. |>.mp h
        rw [← hr] at hsucc
        simp [errResp] at hsucc
      | some u =>
        rw [hfind] at h
        have hu := List.find?_some hfind
        simp only [Bool.and_eq_true, beq_iff_eq] at hu
        obtain ⟨htoku, _⟩ := hu
        have humem : u ∈ db := List.mem_of_find?_eq_some hfind
        by_cases hval : passwordValid np = true
        · simp only [hval, Bool.not_true] at h
          rw [if_neg (by simp)] at h
          obtain ⟨_, hdb⟩ := Prod.mk.injEq .. |>.mp h
          subst hdb
          unfold resetPassword
          rw [if_neg hnp']
          have hnone : (updateDb db (consumeResetToken u np)).find?
              (fun v => v.passwordResetToken == some (sha256 token) &&
                expiresAfter v.passwordResetExpires now') = none := by
            rw [List.find?_eq_none]
            intro v hv
            obtain ⟨w, hwmem, rfl⟩ := List.mem_map.mp hv
            by_cases hwid : w._id = u._id
            · simp [consumeResetToken, hwid]
            · have hwtok : w.passwordResetToken ≠ some (sha256 token) := by
                intro hcontra
                exact hwid (congrArg UserRec._id (huniq w hwmem u humem hcontra htoku))
              simp [consumeResetToken, hwid, hwtok]
          rw [hnone]
        · have hvf : passwordValid np = false := by simpa using hval
          simp only [hvf, Bool.not_false] at h
          rw [if_pos trivial] at h
          obtain ⟨hr, _⟩ := Prod.mk.injEq .. |>.mp h
          rw [← hr] at hsucc
          simp [errResp] at hsucc

/-- C4 witness: concrete double consumption — re-submitting Ada's
verification code after a successful verification, and re-using Carol's
reset token after a successful reset, both answer the 400
invalid-or-expired error. -/
theorem C4_witness :
    verifyEmail (verifyEmail [adaLocal] 1 "123456" 0).2 1 "123456" 999999 =
      (errResp 400 "Invalid or expired verification code",
       (verifyEmail [adaLocal] 1 "123456" 0).2) ∧
    resetPassword (resetPassword [carolReset] "rawreset" "New1!pass" 0).2
        "rawreset" "New2!pass" 0 =
      (errResp 400 "Invalid or expired reset token",
       (resetPassword [carolReset] "rawreset" "New1!pass" 0).2) := by
  have h := C4_one_time_secrets_single_use
  exact ⟨h.1 [adaLocal] 1 "123456" 0 (verifyEmail [adaLocal] 1 "123456" 0).1
           (verifyEmail [adaLocal] 1 "123456" 0).2 rfl (by decide) 999999,
         h.2 [carolReset] "rawreset" "New1!pass" 0
           (resetPassword [carolReset] "rawreset" "New1!pass" 0).1
           (resetPassword [carolReset] "rawreset" "New1!pass" 0).2
           (by decide) rfl (by decide) 0 "New2!pass" (by decide)⟩

/-- A Google OAuth profile carrying Bob's email. -/
def googleBob : GoogleProfile :=
  { email := "Bob@X.com", givenName := "Bob", familyName := "Knuth",
    googleId := "gid-123", photo := some "https://pic" }

/-- C5: an OAuth callback whose provider email matches an existing local
record links it — `authMethod` flips to google, `isEmailVerified` becomes
true, the provider id is stored — and afterwards every local login attempt
for that email (any letter case, with email and password supplied) fails
with the `WrongAuthMethod` response. -/
theorem C5_oauth_linking_blocks_local_login
    (env : Env) (db : List UserRec) (p : GoogleProfile) (freshId : Nat)
    (u : UserRec)
    (hfind : findOneEmail db p.email = some u)
    (hlocal : u.authMethod = .localAuth) :
    (googleStrategyVerify db p freshId).1.authMethod = .google ∧
    (googleStrategyVerify db p freshId).1.isEmailVerified = true ∧
    (googleStrategyVerify db p freshId).1.googleId = some p.googleId ∧
    (googleStrategyVerify db p freshId).1._id = u._id ∧
    ∀ (e pw : String) (now : Nat), e ≠ "" → pw ≠ "" →
      emailKey e = emailKey p.email →
      loginUser env (googleStrategyVerify db p freshId).2 e pw now =
        errResp 400 "This account uses Google sign-in. Please login with Google." := by
  have hres : googleStrategyVerify db p freshId =
      (linkGoogle u p, updateDb db (linkGoogle u p)) := by
    unfold googleStrategyVerify
    rw [hfind]
    simp [hlocal]
  refine ⟨by rw [hres]; rfl, by rw [hres]; rfl, by rw [hres]; rfl,
          by rw [hres]; rfl, ?_⟩
  intro e pw now he hpw hkey
  have hdb2 : (googleStrategyVerify db p freshId).2 =
      updateDb db (linkGoogle u p) := by rw [hres]
  rw [hdb2]
  unfold loginUser
  rw [if_neg (by simp [he, hpw])]
  unfold findOneEmail at hfind
  have hPu := List.find?_some hfind
  have hfind2 : findOneEmail (updateDb db (linkGoogle u p)) e =
      some (linkGoogle u p) := by
    unfold findOneEmail
    simp only [hkey]
    exact find?_updateDb_match (P := fun v => v.email == emailKey p.email)
      hfind rfl hPu
  rw [hfind2]
  simp [linkGoogle]

/-- C5 witness: linking Bob's local account through a concrete OAuth
callback, then attempting a local login with his correct credentials. -/
theorem C5_witness :
    loginUser ⟨"7d"⟩ (googleStrategyVerify [bobLocal] googleBob 9).2
        "bob@x.com" "Passw0rd!" 0 =
      errResp 400 "This account uses Google sign-in. Please login with Google." :=
  (C5_oauth_linking_blocks_local_login ⟨"7d"⟩ [bobLocal] googleBob 9 bobLocal
    (by decide) (by decide)).2.2.2.2 "bob@x.com" "Passw0rd!" 0
    (by decide) (by decide) (by decide)

/-! ## Secret-field exclusion (C8) -/

/-- The JSON keys of a serialized user object. -/
def keysOf (p : List (String × String)) : List String := p.map Prod.fst

/-- No key of the payload is the password hash, the email verification
code, or the password reset token. -/
def secretFreePayload (p : List (String × String)) : Bool :=
  !(keysOf p).contains "password" &&
  !(keysOf p).contains "emailVerificationCode" &&
  !(keysOf p).contains "passwordResetToken"

/-- Every user object carried by the response (`user` or `users`) is free of
the three secret fields. -/
def secretFreeResp (r : Resp) : Bool :=
  (match r.user? with
   | some p => secretFreePayload p
   | none => true) &&
  (match r.users? with
   | some ps => ps.all secretFreePayload
   | none => true)

theorem secretFree_registerPayload (u : UserRec) :
    secretFreePayload (registerPayload u) = true := by
  obtain ⟨i, fn, ln, em, pw, prt, pre, gi, am, pp, vf, vc, ve, pc, ro, ac⟩ := u
  cases pc <;> rfl

theorem secretFree_loginPayload (u : UserRec) :
    secretFreePayload (loginPayload u) = true := by
  obtain ⟨i, fn, ln, em, pw, prt, pre, gi, am, pp, vf, vc, ve, pc, ro, ac⟩ := u
  cases pc <;> rfl

theorem secretFree_mePayload (u : UserRec) :
    secretFreePayload (mePayload u) = true := by
  obtain ⟨i, fn, ln, em, pw, prt, pre, gi, am, pp, vf, vc, ve, pc, ro, ac⟩ := u
  cases pc <;> rfl

theorem secretFree_profileUserPayload (u : UserRec) :
    secretFreePayload (profileUserPayload u) = true := by
  obtain ⟨i, fn, ln, em, pw, prt, pre, gi, am, pp, vf, vc, ve, pc, ro, ac⟩ := u
  cases pc <;> rfl

theorem secretFree_verifyEmailPayload (u : UserRec) :
    secretFreePayload (verifyEmailPayload u) = true := by
  rfl

theorem secretFree_docJson (u : UserRec) :
    secretFreePayload (docJson u) = true := by
  obtain ⟨i, fn, ln, em, pw, prt, pre, gi, am, pp, vf, vc, ve, pc, ro, ac⟩ := u
  cases gi <;> cases pc <;> rfl

/-- C8: every success response carrying a user projection — register,
login, current-user, complete-profile, list-users, get-user-by-id —
excludes the password hash, the email verification code, and the reset
token fields, in every reachable state (every branch of every handler). -/
theorem C8_projections_exclude_secret_fields :
    (∀ (env : Env) (db : List UserRec) (req : RegisterReq) (now : Nat)
        (code : String) (emailOk : Bool) (freshId : Nat),
      secretFreeResp (registerUser env db req now code emailOk freshId).1 = true) ∧
    (∀ (env : Env) (db : List UserRec) (e pw : String) (now : Nat),
      secretFreeResp (loginUser env db e pw now) = true) ∧
    (∀ (db : List UserRec) (uid : Nat),
      secretFreeResp (getCurrentUser db uid) = true) ∧
    (∀ (db : List UserRec) (uid : Nat) (pcode : String),
      secretFreeResp (completeOAuthProfile db uid pcode).1 = true) ∧
    (∀ db : List UserRec, secretFreeResp (getAllUsers db) = true) ∧
    (∀ (db : List UserRec) (id : Nat),
      secretFreeResp (getUserById db id) = true) := by
  refine ⟨?_, ?_, ?_, ?_, ?_, ?_⟩
  · intro env db req now code emailOk freshId
    unfold registerUser
    split
    · rfl
    · split
      · rfl
      · split
        · rfl
        · simp [secretFreeResp, secretFree_registerPayload]
  · intro env db e pw now
    unfold loginUser
    split
    · rfl
    · split
      · rfl
      · split
        · rfl
        · split
          · rfl
          · split
            · rfl
            · split
              · rfl
              · simp [secretFreeResp, secretFree_loginPayload]
  · intro db uid
    unfold getCurrentUser
    split
    · rfl
    · simp [secretFreeResp, secretFree_mePayload]
  · intro db uid pcode
    unfold completeOAuthProfile
    split
    · rfl
    · split
      · rfl
      · simp [secretFreeResp, secretFree_profileUserPayload]
  · intro db
    unfold getAllUsers
    simp only [secretFreeResp, Bool.and_eq_true, List.all_eq_true]
    refine ⟨trivial, ?_⟩
    intro p hp
    obtain ⟨u, _, rfl⟩ := List.mem_map.mp hp
    exact secretFree_docJson u
  · intro db id
    unfold getUserById
    split
    · rfl
    · simp [secretFreeResp, secretFree_docJson]

/-- An update-profile request leaving `firstName` absent and `lastName`
empty. -/
def reqKeep : UpdateProfileReq :=
  { firstName := none, lastName := some "", postalCode := some "T3B5R5" }

/-- C10: update-profile only ever modifies `firstName`, `lastName` and
`postalCode` — the record's email, password hash, role, authMethod,
isActive, isEmailVerified and OAuth linkage (googleId), as well as its id,
are untouched by the field-update step, an absent or empty request field
keeps its prior value, and the stored state is either unchanged (missing
user / validation failure) or exactly the looked-up record with those three
field updates applied. -/
theorem C10_update_profile_frame
    (db : List UserRec) (uid : Nat) (req : UpdateProfileReq) (u : UserRec)
    (hfind : findById db uid = some u) :
    (applyProfileUpdate u req).email = u.email ∧
    (applyProfileUpdate u req).password = u.password ∧
    (applyProfileUpdate u req).role = u.role ∧
    (applyProfileUpdate u req).authMethod = u.authMethod ∧
    (applyProfileUpdate u req).isActive = u.isActive ∧
    (applyProfileUpdate u req).isEmailVerified = u.isEmailVerified ∧
    (applyProfileUpdate u req).googleId = u.googleId ∧
    (applyProfileUpdate u req)._id = u._id ∧
    ((req.firstName = none ∨ req.firstName = some "") →
      (applyProfileUpdate u req).firstName = u.firstName) ∧
    ((req.lastName = none ∨ req.lastName = some "") →
      (applyProfileUpdate u req).lastName = u.lastName) ∧
    ((req.postalCode = none ∨ req.postalCode = some "") →
      (applyProfileUpdate u req).postalCode = u.postalCode) ∧
    ((updateProfile db uid req).2 = db ∨
      (updateProfile db uid req).2 = updateDb db (applyProfileUpdate u req)) := by
  refine ⟨rfl, rfl, rfl, rfl, rfl, rfl, rfl, rfl, ?_, ?_, ?_, ?_⟩
  · rintro (h | h) <;> simp [applyProfileUpdate, h]
  · rintro (h | h) <;> simp [applyProfileUpdate, h]
  · rintro (h | h) <;> simp [applyProfileUpdate, h]
  · simp only [updateProfile, hfind]
    split
    · exact Or.inl rfl
    · exact Or.inr rfl

/-- C10 witness: Bob updates only his postal code (firstName absent,
lastName empty); email, firstName and lastName keep their prior values. -/
theorem C10_witness :
    (applyProfileUpdate bobLocal reqKeep).email = bobLocal.email ∧
    (applyProfileUpdate bobLocal reqKeep).firstName = bobLocal.firstName ∧
    (applyProfileUpdate bobLocal reqKeep).lastName = bobLocal.lastName := by
  have h := C10_update_profile_frame [bobLocal] 2 reqKeep bobLocal (by decide)
  exact ⟨h.1, h.2.2.2.2.2.2.2.2.1 (Or.inl rfl),
         h.2.2.2.2.2.2.2.2.2.1 (Or.inr rfl)⟩

end YYC
